import Mathlib

/-!
Verification of the YouTube transcription microservice (`transcription/main.py`).

The Python script is shallowly embedded: every external effect (environment
variables, the caption subprocess, the filesystem, the two audio subprocesses,
model loading and inference) is an input supplied by a `World` record, and the
script's control flow is reproduced as pure functions that also return a trace
of the externally visible events (subprocess invocations, draining the pipe,
exit-code checks, model loads, inference) and the final set of files the request
created and left on disk.
-/

/-- Python truthiness of an optional environment value: `os.getenv` returns
`None` when unset, and `not val` is also true for the empty string. -/
def pyFalsy : Option String → Bool
  | none => true
  | some s => s = ""

/-- Python `sep.join(l)`. -/
def pyJoin (sep : String) : List String → String
  | [] => ""
  | x :: xs => xs.foldl (fun acc y => acc ++ sep ++ y) x

/-- Python `s.strip()`: drop leading and trailing whitespace. -/
def pyStrip (s : String) : String :=
  ⟨((s.data.dropWhile Char.isWhitespace).reverse.dropWhile
      Char.isWhitespace).reverse⟩

/-- Python `s.startswith(pre)`. -/
def pyStartsWith (pre s : String) : Bool :=
  List.isPrefixOf pre.data s.data

/-- Left-to-right non-overlapping replacement of a non-empty pattern, with
explicit fuel (the list length) so the recursion is structural. -/
def replaceSubAux (pat repl : List Char) : Nat → List Char → List Char
  | _, [] => []
  | 0, l => l
  | Nat.succ fuel, c :: t =>
    if List.isPrefixOf pat (c :: t) then
      repl ++ replaceSubAux pat repl fuel (List.drop (pat.length - 1) t)
    else c :: replaceSubAux pat repl fuel t

/-- Python `s.replace(pat, repl)` for a non-empty pattern. -/
def pyReplace (pat repl s : String) : String :=
  ⟨replaceSubAux pat.data repl.data s.data.length s.data⟩

/-- Python `s.split('\n')` at the character-list level (keeps empty parts). -/
def splitOnNewline : List Char → List (List Char)
  | [] => [[]]
  | d :: t =>
    match splitOnNewline t with
    | [] => [[]]
    | r :: rs => if d = '\n' then [] :: r :: rs else (d :: r) :: rs

/-- Python `s.split('\n')` on strings. -/
def pyLines (s : String) : List String :=
  (splitOnNewline s.data).map (fun l => ⟨l⟩)

/-- The process environment read by the script: the four proxy variables and
`WHISPER_MODEL_SIZE` (`none` models an unset variable). -/
structure Env where
  proxyUser : Option String
  proxyPass : Option String
  proxyHost : Option String
  proxyPort : Option String
  modelSize : Option String

/-- Lines 29-35: the list of names of proxy variables that are unset or empty,
in the fixed order `PROXY_USER`, `PROXY_PASS`, `PROXY_HOST`, `PROXY_PORT`. -/
def missingProxyVars (e : Env) : List String :=
  [("PROXY_USER", e.proxyUser), ("PROXY_PASS", e.proxyPass),
   ("PROXY_HOST", e.proxyHost), ("PROXY_PORT", e.proxyPort)].filterMap
    (fun nv => if pyFalsy nv.2 then some nv.1 else none)

/-- Lines 22-45, `get_proxy_config`: if any of the four values is falsy the
function raises `ValueError` with a message joining every missing name;
otherwise it returns the proxy URL and the raw credentials. -/
def getProxyConfig (e : Env) : Except String (String × String × String) :=
  if missingProxyVars e = [] then
    .ok ("http://" ++ e.proxyHost.getD "" ++ ":" ++ e.proxyPort.getD "",
         e.proxyUser.getD "", e.proxyPass.getD "")
  else
    .error ("Missing proxy environment variables: " ++
            pyJoin ", " (missingProxyVars e))

/-- ASCII reading of Python's `str.isalnum` character test. -/
def pyIsAlnumChar (c : Char) : Bool := c.isAlpha || c.isDigit

/-- Python `s.isalnum()`: non-empty and every character alphanumeric. -/
def pyStrIsAlnum (s : String) : Bool :=
  !s.data.isEmpty && s.data.all pyIsAlnumChar

/-- Python `s.replace(c, '')` for a single-character pattern: every occurrence
of `c` is removed. -/
def removeChar (c : Char) (s : String) : String :=
  ⟨s.data.filter (fun d => d ≠ c)⟩

/-- Line 333: the CLI validation,
`video_id.replace('-','').replace('_','').isalnum() and len(video_id) == 11`
(the source rejects when the negation holds). -/
def validVideoIdCLI (s : String) : Bool :=
  pyStrIsAlnum (removeChar '_' (removeChar '-' s)) && s.length == 11

/-- Boolean substring test on character lists. -/
def hasSub (n : List Char) : List Char → Bool
  | [] => n.isEmpty
  | c :: t => List.isPrefixOf n (c :: t) || hasSub n t

/-- Python `s.isdigit()` (ASCII digits): non-empty and all digits. -/
def pyIsDigitStr (s : String) : Bool :=
  !s.data.isEmpty && s.data.all Char.isDigit

/-- Line 133: a stripped caption line is kept when it is non-empty, does not
start with the `WEBVTT` magic, does not contain the cue-timing arrow `-->`,
and is not a pure-numeral index line. -/
def keepLine (l : String) : Bool :=
  !(l == "") && !(pyStartsWith "WEBVTT" l) && !(hasSub "-->".data l.data) &&
  !(pyIsDigitStr l)

/-- Lines 135-136: remove every `<c>` and `</c>` tag and strip the line. -/
def stripTags (l : String) : String :=
  pyStrip (pyReplace "</c>" "" (pyReplace "<c>" "" l))

/-- Lines 129-140: the caption-parsing loop over the split lines; kept lines
are cleaned and the non-empty results joined with single spaces. -/
def parseVTTLines (lines : List String) : String :=
  pyJoin " " (lines.filterMap (fun raw =>
    let l := pyStrip raw
    if keepLine l then
      let c := stripTags l
      if c = "" then none else some c
    else none))

/-- Lines 129-140 applied to a whole caption document (`split('\n')`). -/
def parseVTT (doc : String) : String :=
  parseVTTLines (pyLines doc)

/-- Lines 110-115: the ordered list of caption file names the script probes,
all fixed functions of the video reference alone. -/
def captionProbePaths (id : String) : List String :=
  ["/tmp/" ++ id ++ ".en.vtt", "/tmp/" ++ id ++ ".es.vtt",
   "/tmp/" ++ id ++ ".en-US.vtt", "/tmp/" ++ id ++ ".vtt"]

/-- Lines 118-124: the first probed path that exists on disk. -/
def probeCaption (fs : List String) (paths : List String) : Option String :=
  paths.find? (fun p => fs.contains p)

/-- Contents of a created file (association lookup on path). -/
def lookupContent (created : List (String × String)) (p : String) : String :=
  match created.find? (fun e => e.1 = p) with
  | some e => e.2
  | none => ""

/-- Externally visible events of one request, in the order they happen. -/
inductive Ev where
  | captionRun : Ev
  | audioStart : Ev
  | drainOutput : Ev
  | waitYt : Ev
  | checkYtCode : Ev
  | checkFfCode : Ev
  | checkEmpty : Ev
  | loadModel (m : String) : Ev
  | runInference : Ev
deriving DecidableEq

/-- The observable outcome of one `transcribe` run: the returned value, the
event trace, and the request-created files still on disk at the end. -/
structure TOut where
  output : Option String
  events : List Ev
  fsAfter : List String
deriving DecidableEq

/-- Outcome of `model.transcribe` (lines 266-276): either an exception, or a
result value with an optional `text` field and a string representation. -/
inductive Inference where
  | raised : Inference
  | result (textField : Option String) (reprStr : String) : Inference

/-- One request's external world: environment, video reference, and the
behaviour of every external collaborator the script calls. -/
structure World where
  env : Env
  videoId : String
  /-- Line 107: `subprocess.run` raises (missing binary, 60 s timeout). -/
  captionThrows : Bool
  /-- Files (path, contents) the caption subprocess writes to `/tmp`. -/
  captionCreated : List (String × String)
  /-- Exit code of the `yt-dlp` audio download process. -/
  ytExit : Int
  /-- Exit code of the `ffmpeg` resampler process. -/
  ffExit : Int
  /-- Bytes read from the resampler's standard output. -/
  audioData : List UInt8
  /-- Whether `whisper.load_model` succeeds for a given identifier. -/
  loadOk : String → Bool
  /-- Outcome of the inference call. -/
  inference : Inference
  /-- Name produced by `tempfile.NamedTemporaryFile` for the bridge file. -/
  tmpName : String

/-- Lines 105-148, the caption stage: if the subprocess raises, the exception
is caught and nothing was probed; otherwise the probe takes the first existing
caption file, reads it, deletes it, and parses it when its contents are
non-empty. The first component is the non-empty parsed text if any (the value
`transcribe` returns early); the second is the set of files on disk after the
stage. -/
def captionStage (w : World) : Option String × List String :=
  if w.captionThrows then (none, [])
  else
    match probeCaption (w.captionCreated.map (fun e => e.1))
        (captionProbePaths w.videoId) with
    | none => (none, w.captionCreated.map (fun e => e.1))
    | some p =>
      if lookupContent w.captionCreated p = "" then
        (none, (w.captionCreated.map (fun e => e.1)).filter (fun q => q ≠ p))
      else
        (if parseVTT (lookupContent w.captionCreated p) = "" then none
         else some (parseVTT (lookupContent w.captionCreated p)),
         (w.captionCreated.map (fun e => e.1)).filter (fun q => q ≠ p))

/-- Lines 191-236, the two-process audio pipeline: spawn both processes, drain
all of ffmpeg's output (`communicate`), wait for yt-dlp, then check yt-dlp's
exit code, then ffmpeg's, then reject an empty buffer; only a non-empty buffer
after two zero exits is returned. -/
def runAudioPipeline (w : World) : Option (List UInt8) × List Ev :=
  if w.ytExit ≠ 0 then
    (none, [Ev.audioStart, Ev.drainOutput, Ev.waitYt, Ev.checkYtCode])
  else if w.ffExit ≠ 0 then
    (none, [Ev.audioStart, Ev.drainOutput, Ev.waitYt, Ev.checkYtCode,
            Ev.checkFfCode])
  else if w.audioData = [] then
    (none, [Ev.audioStart, Ev.drainOutput, Ev.waitYt, Ev.checkYtCode,
            Ev.checkFfCode, Ev.checkEmpty])
  else
    (some w.audioData,
     [Ev.audioStart, Ev.drainOutput, Ev.waitYt, Ev.checkYtCode,
      Ev.checkFfCode, Ev.checkEmpty])

/-- Line 242: `'base' if model_size in ['large-v3', 'large'] else model_size`. -/
def selectWhisperModel (size : String) : String :=
  if size = "large-v3" ∨ size = "large" then "base" else size

/-- Lines 240-253: load the selected model; on failure fall back to `tiny`;
`none` when both loads fail (the request then returns `None`). -/
def loadModelChain (loadOk : String → Bool) (size : String) : Option String :=
  let sel := selectWhisperModel size
  if loadOk sel then some sel
  else if loadOk "tiny" then some "tiny"
  else none

/-- Lines 255-294: write the buffer to the bridge file, run inference, and
unlink the bridge file in the `finally` block on every path; an inference
exception is caught by the outer handler and yields `None`; the extracted
text is stripped and an empty result is `None`. -/
def inferPhase (w : World) (evs : List Ev) (fs : List String) : TOut :=
  match w.inference with
  | .raised =>
    ⟨none, evs ++ [Ev.runInference],
     (w.tmpName :: fs).filter (fun q => q ≠ w.tmpName)⟩
  | .result tf rep =>
    ⟨if pyStrip (match tf with | some t => t | none => rep) = "" then none
      else some (pyStrip (match tf with | some t => t | none => rep)),
     evs ++ [Ev.runInference],
     (w.tmpName :: fs).filter (fun q => q ≠ w.tmpName)⟩

/-- Lines 238-253 followed by inference: the model-selection/fallback chain;
when even `tiny` fails to load the request returns `None` with no bridge file
ever created. -/
def modelPhase (w : World) (evs : List Ev) (fs : List String) : TOut :=
  match loadModelChain w.loadOk (w.env.modelSize.getD "base") with
  | none =>
    ⟨none, evs ++ [Ev.loadModel (selectWhisperModel (w.env.modelSize.getD "base")),
                   Ev.loadModel "tiny"], fs⟩
  | some m =>
    if m = selectWhisperModel (w.env.modelSize.getD "base") then
      inferPhase w (evs ++ [Ev.loadModel m]) fs
    else
      inferPhase w
        (evs ++ [Ev.loadModel (selectWhisperModel (w.env.modelSize.getD "base")),
                 Ev.loadModel "tiny"]) fs

/-- Strategy 2 (lines 154-320): the audio pipeline, then, only when it
produced a non-empty buffer, model loading and inference. -/
def audioPhase (w : World) (fs : List String) : TOut :=
  match runAudioPipeline w with
  | (none, aevs) => ⟨none, Ev.captionRun :: aevs, fs⟩
  | (some _, aevs) => modelPhase w (Ev.captionRun :: aevs) fs

/-- Lines 62-320 after the initial validation: a proxy-configuration error is
caught and returns `None` with no subprocess started; otherwise the caption
stage runs and its non-empty parsed text is returned early, the audio fallback
running exactly when there is none. -/
def transcribeBody (w : World) : TOut :=
  match getProxyConfig w.env with
  | .error _ => ⟨none, [], []⟩
  | .ok _ =>
    match captionStage w with
    | (some t, fs) => ⟨some t, [Ev.captionRun], fs⟩
    | (none, fs) => audioPhase w fs

/-- Lines 48-320, `transcribe`: the only uncaught exception is the initial
`ValueError` for an empty or non-11-character video reference. -/
def transcribe (w : World) : Except String TOut :=
  if w.videoId = "" ∨ w.videoId.length ≠ 11 then
    .error "Invalid YouTube video ID. Must be 11 characters."
  else .ok (transcribeBody w)

/-- Lines 323-353, `main` with one positional argument: strip it, reject an
invalid reference with exit code 1 before any I/O, then run `transcribe`;
exit 0 exactly when a transcript was produced, 1 otherwise (including the
caught fatal exception). The second component is the event trace. -/
def pyMain (arg : String) (w : World) : Nat × List Ev :=
  if validVideoIdCLI (pyStrip arg) = false then (1, [])
  else
    match transcribe { w with videoId := pyStrip arg } with
    | .error _ => (1, [])
    | .ok r => (if r.output.isSome then 0 else 1, r.events)

/-- What a signal handler can do when a signal arrives: the two behaviours
relevant to this script are raising `SystemExit` (`sys.exit`) and the default
`KeyboardInterrupt` that the `except` clause at lines 309-316 would catch. -/
inductive HandlerAction where
  | sysExit (code : Nat) : HandlerAction
  | raiseKeyboardInterrupt : HandlerAction

/-- Lines 184-189: the handler installed for `SIGINT` and `SIGTERM` prints a
message and calls `sys.exit(0)`. -/
def installedHandler : HandlerAction := .sysExit 0

/-- Observable outcome of a signal delivered while the two audio subprocesses
are running: the process exit code and whether each child was killed. -/
structure InterruptOutcome where
  exitCode : Nat
  ytKilled : Bool
  ffKilled : Bool
deriving DecidableEq

/-- Semantics of a signal arriving while both subprocesses run. `sys.exit`
raises `SystemExit`, which is neither an `Exception` (line 296) nor a
`KeyboardInterrupt` (line 309), so it propagates and the interpreter exits
with the given code without any `kill` call running. Only a raised
`KeyboardInterrupt` would reach the handler at lines 309-316, which kills
both children and returns `None` (so `main` exits 1). -/
def onSignalDuringPipeline : HandlerAction → InterruptOutcome
  | .sysExit c => ⟨c, false, false⟩
  | .raiseKeyboardInterrupt => ⟨1, true, true⟩

/-- The caption path actually probed and read by lines 118-124, if any. -/
def probedPath (w : World) : Option String :=
  if w.captionThrows then none
  else probeCaption (w.captionCreated.map (fun e => e.1))
        (captionProbePaths w.videoId)

/-- The caption file names one request probes: a function of the video
reference only. -/
def captionPathsOf (w : World) : List String :=
  captionProbePaths w.videoId

/-- The bridge-file name of one request: the fresh name handed out by
`tempfile.NamedTemporaryFile` (line 257), independent of the reference. -/
def bridgePathOf (w : World) : String :=
  w.tmpName

/-- A complete proxy environment for concrete runs. -/
def fullEnv : Env :=
  ⟨some "user", some "secret", some "proxy.example", some "33335", none⟩

/-- A VTT-style caption document with a header line, one cue-timing line and
one text cue. -/
def helloDoc : String :=
  "WEBVTT\n\n00:00:00.000 --> 00:00:02.000\nHello world\n"

/-- Baseline concrete world: complete proxy config, valid reference, caption
subprocess completes writing nothing, audio pipeline succeeds, model loads,
inference yields text. -/
def baseWorld : World where
  env := fullEnv
  videoId := "dQw4w9WgXcQ"
  captionThrows := false
  captionCreated := []
  ytExit := 0
  ffExit := 0
  audioData := [82, 73, 70, 70]
  loadOk := fun _ => true
  inference := .result (some " test transcript ") ""
  tmpName := "/tmp/tmpa1b2c3.wav"

/-- World where the caption subprocess wrote an English caption file. -/
def capWorld : World :=
  { baseWorld with
    captionCreated := [("/tmp/dQw4w9WgXcQ.en.vtt", helloDoc)] }

/-- World where the downloader exits nonzero though bytes were produced. -/
def audioFailWorld : World :=
  { baseWorld with ytExit := 1 }

/-- World where the caption subprocess wrote caption files in two languages;
only the first probed one is read and deleted. -/
def leakWorld : World :=
  { baseWorld with
    captionCreated :=
      [("/tmp/dQw4w9WgXcQ.en.vtt", helloDoc),
       ("/tmp/dQw4w9WgXcQ.es.vtt", "WEBVTT\n\nHola mundo\n")] }

/-- Environment with every proxy variable unset. -/
def noProxyEnv : Env :=
  ⟨none, none, none, none, none⟩

/-- World with no proxy configuration at all. -/
def noProxyWorld : World :=
  { baseWorld with env := noProxyEnv }

/-- World whose per-request temporary name differs from `baseWorld`'s. -/
def otherTmpWorld : World :=
  { baseWorld with tmpName := "/tmp/tmpz9y8x7.wav" }

/-- World carrying an 11-character reference outside the permitted alphabet,
with the caption subprocess failing (e.g. timeout). -/
def badAlphabetWorld : World :=
  { baseWorld with videoId := "!!!!!!!!!!!", captionThrows := true }

/-- World whose caption file holds only the header, so parsing yields no text
and the audio fallback with inference runs. -/
def cleanWorld : World :=
  { baseWorld with captionCreated := [("/tmp/dQw4w9WgXcQ.en.vtt", "WEBVTT\n")] }

theorem infix_pyJoin_aux (sep : String) (xs : List String) :
    ∀ acc v : String, (v.data <:+: acc.data ∨ v ∈ xs) →
      v.data <:+: (xs.foldl (fun a y => a ++ sep ++ y) acc).data := by
  induction xs with
  | nil =>
    intro acc v h
    simpa using h.resolve_right (by simp)
  | cons y ys ih =>
    intro acc v h
    apply ih
    rcases h with h | h
    · left
      obtain ⟨s, t, hst⟩ := h
      refine ⟨s, t ++ sep.data ++ y.data, ?_⟩
      simp only [String.data_append, ← hst, List.append_assoc]
    · rcases List.mem_cons.mp h with rfl | h2
      · left
        refine ⟨acc.data ++ sep.data, [], ?_⟩
        simp [String.data_append]
      · right
        exact h2

theorem mem_infix_pyJoin (sep : String) (l : List String) (v : String)
    (hv : v ∈ l) : v.data <:+: (pyJoin sep l).data := by
  cases l with
  | nil => cases hv
  | cons x xs =>
    rcases List.mem_cons.mp hv with h1 | h
    · cases h1
      exact infix_pyJoin_aux sep xs v v (Or.inl List.infix_rfl)
    · exact infix_pyJoin_aux sep xs x v (Or.inr h)

theorem length_of_validVideoIdCLI (s : String)
    (h : validVideoIdCLI s = true) : s.length = 11 := by
  have h2 := (Bool.and_eq_true _ _).mp h
  simpa using h2.2

theorem trim_ne_empty_of_validVideoIdCLI (s : String)
    (h : validVideoIdCLI s = true) : s ≠ "" := by
  intro he
  have := length_of_validVideoIdCLI s h
  rw [he] at this
  simp at this

/-- C4: if any of the four proxy values is absent (or empty), `transcribe`
fails with a configuration error whose message names every missing value, the
event trace is empty (zero subprocess invocations, no pipeline attempt), and
the CLI exits with code 1. -/
theorem proxy_config_failure (arg : String) (w : World)
    (hmiss : missingProxyVars w.env ≠ [])
    (hvalid : validVideoIdCLI (pyStrip arg) = true) :
    (∃ msg, getProxyConfig w.env = .error msg ∧
      ∀ v ∈ missingProxyVars w.env, v.data <:+: msg.data) ∧
    transcribe { w with videoId := (pyStrip arg) } = .ok ⟨none, [], []⟩ ∧
    pyMain arg w = (1, []) := by
  have hlen : (pyStrip arg).length = 11 := length_of_validVideoIdCLI _ hvalid
  have hne : (pyStrip arg) ≠ "" := trim_ne_empty_of_validVideoIdCLI _ hvalid
  have htr : transcribe { w with videoId := (pyStrip arg) } = .ok ⟨none, [], []⟩ := by
    unfold transcribe transcribeBody
    rw [if_neg (by simp [hne, hlen])]
    unfold getProxyConfig
    rw [if_neg hmiss]
  refine ⟨⟨"Missing proxy environment variables: " ++
      pyJoin ", " (missingProxyVars w.env), ?_, ?_⟩, htr, ?_⟩
  · unfold getProxyConfig
    rw [if_neg hmiss]
  · intro v hv
    have h1 := mem_infix_pyJoin ", " (missingProxyVars w.env) v hv
    exact h1.trans ⟨("Missing proxy environment variables: " : String).data, [],
      by simp [String.data_append]⟩
  · unfold pyMain
    rw [if_neg (by simp [hvalid]), htr]
    rfl

/-- Witness for C4 at an environment with all four variables unset. -/
theorem proxy_config_failure_witness :
    (∃ msg, getProxyConfig noProxyWorld.env = .error msg ∧
      ∀ v ∈ missingProxyVars noProxyWorld.env, v.data <:+: msg.data) ∧
    transcribe { noProxyWorld with videoId := (pyStrip "dQw4w9WgXcQ") } =
      .ok ⟨none, [], []⟩ ∧
    pyMain "dQw4w9WgXcQ" noProxyWorld = (1, []) :=
  proxy_config_failure "dQw4w9WgXcQ" noProxyWorld (by decide) (by decide)


/-- C5 counterexample: a reference of 11 characters drawn entirely from the
permitted alphabet (all underscores) is nevertheless rejected by the CLI,
because after deleting '-' and '_' the remainder is empty and Python's
`isalnum` is false on the empty string. -/
theorem cli_alphabet_counterexample :
    ("___________" : String).length = 11 ∧
    (∀ c ∈ ("___________" : String).data,
      c = '-' ∨ c = '_' ∨ pyIsAlnumChar c = true) ∧
    validVideoIdCLI "___________" = false ∧
    pyMain "___________" baseWorld = (1, []) :=
  ⟨by decide, by decide, by decide, by decide⟩

/-- C5 amended: the CLI accepts a reference iff it is exactly 11 characters
from the alphanumeric/'-'/'_' alphabet and at least one character is
alphanumeric; every string rejected by the validation exits with code 1 and
performs zero subprocess invocations. -/
theorem cli_validation_amended (s : String) (w : World) :
    (validVideoIdCLI s = true ↔
      (s.length = 11 ∧
       (∀ c ∈ s.data, c = '-' ∨ c = '_' ∨ pyIsAlnumChar c = true) ∧
       (∃ c ∈ s.data, pyIsAlnumChar c = true))) ∧
    (validVideoIdCLI (pyStrip s) = false → pyMain s w = (1, [])) := by
  have hmem : ∀ c : Char, c ∈ (removeChar '_' (removeChar '-' s)).data ↔
      (c ∈ s.data ∧ ¬c = '-' ∧ ¬c = '_') := by
    intro c
    unfold removeChar
    simp [List.mem_filter, and_assoc]
    tauto
  constructor
  · constructor
    · intro h
      have h1 := (Bool.and_eq_true _ _).mp h
      have h2 := (Bool.and_eq_true _ _).mp h1.1
      have hlen : s.length = 11 := by simpa using h1.2
      refine ⟨hlen, ?_, ?_⟩
      · intro c hc
        by_cases hd : c = '-'
        · exact Or.inl hd
        by_cases hu : c = '_'
        · exact Or.inr (Or.inl hu)
        refine Or.inr (Or.inr ?_)
        have hcmem : c ∈ (removeChar '_' (removeChar '-' s)).data :=
          (hmem c).mpr ⟨hc, hd, hu⟩
        exact List.all_eq_true.mp h2.2 c hcmem
      · have hx : ∃ c, c ∈ (removeChar '_' (removeChar '-' s)).data := by
          rcases he : (removeChar '_' (removeChar '-' s)).data with _ | ⟨a, t⟩
          · exfalso
            rw [he] at h2
            simp at h2
          · exact ⟨a, List.mem_cons_self a t⟩
        obtain ⟨c, hc⟩ := hx
        have hcc := (hmem c).mp hc
        exact ⟨c, hcc.1, List.all_eq_true.mp h2.2 c hc⟩
    · rintro ⟨hlen, hall, c, hc, hcal⟩
      have hcd : ¬c = '-' := by
        intro he
        rw [he] at hcal
        exact absurd hcal (by decide)
      have hcu : ¬c = '_' := by
        intro he
        rw [he] at hcal
        exact absurd hcal (by decide)
      refine (Bool.and_eq_true _ _).mpr
        ⟨(Bool.and_eq_true _ _).mpr ⟨?_, ?_⟩, by simpa using hlen⟩
      · have hcmem : c ∈ (removeChar '_' (removeChar '-' s)).data :=
          (hmem c).mpr ⟨hc, hcd, hcu⟩
        rcases he : (removeChar '_' (removeChar '-' s)).data with _ | ⟨a, t⟩
        · rw [he] at hcmem
          cases hcmem
        · simp
      · refine List.all_eq_true.mpr ?_
        intro x hx
        have hx2 := (hmem x).mp hx
        rcases hall x hx2.1 with h | h | h
        · exact absurd h hx2.2.1
        · exact absurd h hx2.2.2
        · exact h
  · intro h
    simp [pyMain, h]

/-- Witness for C5 amended at a rejected three-character argument. -/
theorem cli_validation_amended_witness :
    pyMain "abc" baseWorld = (1, []) :=
  (cli_validation_amended "abc" baseWorld).2 (by decide)

/-- C6: a signal delivered while the two audio subprocesses are running hits
the installed handler, which calls `sys.exit(0)`; the resulting `SystemExit`
escapes both `except` clauses, so the process exits with code 0 (reported
success) and neither child is killed. The claimed behaviour (kill both,
report failure) is the one the dead `except KeyboardInterrupt` branch would
have produced had no handler been installed. -/
theorem signal_handler_exits_zero_without_kill :
    onSignalDuringPipeline installedHandler =
      ⟨0, false, false⟩ ∧
    onSignalDuringPipeline HandlerAction.raiseKeyboardInterrupt =
      ⟨1, true, true⟩ :=
  ⟨rfl, rfl⟩

/-- C7: caption parsing equals the staged pipeline the spec describes — strip
each line, discard header lines (`WEBVTT` magic), cue-timing lines (timestamp
arrow) and pure-numeral index lines, strip the inline markup tags from the
surviving lines, and join the non-empty results with single spaces; the
Hello-world VTT scenario parses to exactly its cue text. -/
theorem caption_parse_rules :
    (∀ lines : List String,
      parseVTTLines lines =
        pyJoin " " ((((lines.map pyStrip).filter keepLine).map stripTags).filter
          (fun c => !(c == "")))) ∧
    parseVTT helloDoc = "Hello world" := by
  constructor
  · intro lines
    unfold parseVTTLines
    congr 1
    induction lines with
    | nil => rfl
    | cons x xs ih =>
      by_cases hk : keepLine (pyStrip x) = true
      · by_cases hc : stripTags (pyStrip x) = ""
        · simp [hk, hc, ih]
        · simp [hk, hc, ih]
      · simp [hk, ih]
  · decide

/-- C8 counterexample: an unknown model-size name is not degraded by the
selection step — it is passed through unchanged (only `large`/`large-v3` map
to `base`); it only reaches `tiny` later, through the load-failure fallback. -/
theorem model_selection_counterexample :
    selectWhisperModel "enormous-v9" = "enormous-v9" ∧
    ("enormous-v9" : String) ≠ "base" ∧
    ("enormous-v9" : String) ≠ "tiny" ∧
    loadModelChain (fun m => !(m == "enormous-v9")) "enormous-v9" =
      some "tiny" :=
  ⟨rfl, by decide, by decide, by decide⟩

/-- C8 amended: selection maps `large` and `large-v3` to `base` and every
other requested name to itself; if loading the selected identifier fails the
engine degrades once to `tiny`, and the request fails only when `tiny` also
fails to load. -/
theorem model_fallback_amended (size : String) (avail : String → Bool) :
    (size = "large" ∨ size = "large-v3" → selectWhisperModel size = "base") ∧
    (size ≠ "large" → size ≠ "large-v3" → selectWhisperModel size = size) ∧
    (avail (selectWhisperModel size) = true →
      loadModelChain avail size = some (selectWhisperModel size)) ∧
    (avail (selectWhisperModel size) = false → avail "tiny" = true →
      loadModelChain avail size = some "tiny") ∧
    (avail (selectWhisperModel size) = false → avail "tiny" = false →
      loadModelChain avail size = none) := by
  refine ⟨?_, ?_, ?_, ?_, ?_⟩
  · intro h
    unfold selectWhisperModel
    rw [if_pos h.symm]
  · intro h1 h2
    unfold selectWhisperModel
    rw [if_neg (by rintro (h | h) <;> [exact h2 h; exact h1 h])]
  · intro h
    unfold loadModelChain
    rw [if_pos h]
  · intro h1 h2
    unfold loadModelChain
    rw [if_neg (by simp [h1]), if_pos h2]
  · intro h1 h2
    unfold loadModelChain
    rw [if_neg (by simp [h1]), if_neg (by simp [h2])]

/-- Witness for C8 amended: `large` degrades to `base` and loads. -/
theorem model_fallback_amended_witness :
    selectWhisperModel "large" = "base" ∧
    loadModelChain (fun _ => true) "large" = some (selectWhisperModel "large") :=
  ⟨(model_fallback_amended "large" (fun _ => true)).1 (Or.inl rfl),
   (model_fallback_amended "large" (fun _ => true)).2.2.1 rfl⟩

/-- C9 counterexample: two requests for the same reference with different
per-request temporary names probe exactly the same fixed caption paths — the
caption artifact names are a function of the video reference alone, with no
unique or random component. -/
theorem fixed_caption_names_counterexample :
    baseWorld.tmpName ≠ otherTmpWorld.tmpName ∧
    captionPathsOf baseWorld = captionPathsOf otherTmpWorld ∧
    captionPathsOf baseWorld =
      ["/tmp/dQw4w9WgXcQ.en.vtt", "/tmp/dQw4w9WgXcQ.es.vtt",
       "/tmp/dQw4w9WgXcQ.en-US.vtt", "/tmp/dQw4w9WgXcQ.vtt"] :=
  ⟨by decide, rfl, by decide⟩

/-- C9 amended: only the audio-to-inference bridge file gets a per-request
name (from `tempfile.NamedTemporaryFile`); caption artifact names are fixed,
determined by the video reference alone, so concurrent requests for the same
reference collide on them. -/
theorem artifact_naming_amended (w1 w2 : World) :
    (w1.videoId = w2.videoId → captionPathsOf w1 = captionPathsOf w2) ∧
    (w1.tmpName ≠ w2.tmpName → bridgePathOf w1 ≠ bridgePathOf w2) := by
  refine ⟨fun h => ?_, fun h => h⟩
  unfold captionPathsOf
  rw [h]

/-- Witness for C9 amended at the two concrete colliding requests. -/
theorem artifact_naming_amended_witness :
    captionPathsOf baseWorld = captionPathsOf otherTmpWorld ∧
    bridgePathOf baseWorld ≠ bridgePathOf otherTmpWorld :=
  ⟨(artifact_naming_amended baseWorld otherTmpWorld).1 rfl,
   (artifact_naming_amended baseWorld otherTmpWorld).2 (by decide)⟩

/-- C2: both exit codes are checked only after all output has been drained
(the drain and wait events precede the first exit-code check in the trace);
a nonzero exit from either process makes the pipeline fail even though bytes
may have been produced; and an empty buffer after two zero exits is itself a
failure. -/
theorem exit_codes_checked_after_drain (w : World) :
    ([Ev.audioStart, Ev.drainOutput, Ev.waitYt, Ev.checkYtCode] <+:
      (runAudioPipeline w).2) ∧
    (w.ytExit ≠ 0 ∨ w.ffExit ≠ 0 → (runAudioPipeline w).1 = none) ∧
    (w.ytExit = 0 → w.ffExit = 0 → w.audioData = [] →
      (runAudioPipeline w).1 = none) := by
  unfold runAudioPipeline
  by_cases h1 : w.ytExit = 0
  · by_cases h2 : w.ffExit = 0
    · by_cases h3 : w.audioData = []
      · rw [if_neg (by simp [h1]), if_neg (by simp [h2]), if_pos h3]
        exact ⟨⟨[Ev.checkFfCode, Ev.checkEmpty], rfl⟩, fun _ => rfl,
               fun _ _ _ => rfl⟩
      · rw [if_neg (by simp [h1]), if_neg (by simp [h2]), if_neg h3]
        refine ⟨⟨[Ev.checkFfCode, Ev.checkEmpty], rfl⟩, ?_, ?_⟩
        · rintro (hh | hh)
          · exact absurd h1 hh
          · exact absurd h2 hh
        · intro _ _ hdata
          exact absurd hdata h3
    · rw [if_neg (by simp [h1]), if_pos h2]
      exact ⟨⟨[Ev.checkFfCode], rfl⟩, fun _ => rfl, fun _ hf _ => absurd hf h2⟩
  · rw [if_pos h1]
    exact ⟨⟨[], rfl⟩, fun _ => rfl, fun hy _ _ => absurd hy h1⟩

/-- Witness for C2 at a world whose downloader exits 1 with bytes produced. -/
theorem exit_codes_checked_after_drain_witness :
    (runAudioPipeline audioFailWorld).1 = none :=
  (exit_codes_checked_after_drain audioFailWorld).2.1 (Or.inl (by decide))

theorem captionStage_some_ne_empty (w : World) (t : String)
    (h : (captionStage w).1 = some t) : t ≠ "" := by
  unfold captionStage at h
  split at h
  · simp at h
  · split at h
    · simp at h
    · split at h
      · simp at h
      · split at h
        · simp at h
        · rename_i hpar
          simp at h
          exact h ▸ hpar

theorem captionStage_of_throw (w : World) (hthrow : w.captionThrows = true) :
    captionStage w = (none, []) := by
  unfold captionStage
  rw [if_pos hthrow]

theorem count_audioStart_inferPhase (w : World) (evs : List Ev)
    (fs : List String) :
    (inferPhase w evs fs).events.count Ev.audioStart =
      evs.count Ev.audioStart := by
  unfold inferPhase
  rcases w.inference with _ | ⟨tf, rep⟩ <;>
    simp [List.count_append, List.count_cons]

theorem count_audioStart_modelPhase (w : World) (evs : List Ev)
    (fs : List String) :
    (modelPhase w evs fs).events.count Ev.audioStart =
      evs.count Ev.audioStart := by
  unfold modelPhase
  split
  · simp [List.count_append, List.count_cons]
  · split
    · rw [count_audioStart_inferPhase]
      simp [List.count_append, List.count_cons]
    · rw [count_audioStart_inferPhase]
      simp [List.count_append, List.count_cons]

theorem count_audioStart_audioPhase (w : World) (fs : List String) :
    (audioPhase w fs).events.count Ev.audioStart = 1 := by
  unfold audioPhase runAudioPipeline
  by_cases h1 : w.ytExit = 0
  · by_cases h2 : w.ffExit = 0
    · by_cases h3 : w.audioData = []
      · rw [if_neg (by simp [h1]), if_neg (by simp [h2]), if_pos h3]
        rfl
      · rw [if_neg (by simp [h1]), if_neg (by simp [h2]), if_neg h3]
        show (modelPhase w (Ev.captionRun ::
          [Ev.audioStart, Ev.drainOutput, Ev.waitYt, Ev.checkYtCode,
           Ev.checkFfCode, Ev.checkEmpty]) fs).events.count Ev.audioStart = 1
        rw [count_audioStart_modelPhase]
        rfl
    · rw [if_neg (by simp [h1]), if_pos h2]
      rfl
  · rw [if_pos h1]
    rfl

theorem transcribeBody_eq (w : World) (hpx : missingProxyVars w.env = []) :
    transcribeBody w =
      (match captionStage w with
       | (some t, fs) => ⟨some t, [Ev.captionRun], fs⟩
       | (none, fs) => audioPhase w fs) := by
  unfold transcribeBody getProxyConfig
  rw [if_pos hpx]

/-- C1: for a well-formed 11-character reference and complete proxy
configuration, the pipeline never aborts (even when the caption subprocess
raises), the audio/resampling fallback is started exactly once iff the
caption stage yields no non-empty parsed text, and when it does yield text
the audio stage is never started and that text is returned. -/
theorem captions_first_shortcircuit (w : World)
    (hid : w.videoId.length = 11)
    (hpx : missingProxyVars w.env = []) :
    ∃ r, transcribe w = .ok r ∧
      (∀ t, (captionStage w).1 = some t →
        r.output = some t ∧ t ≠ "" ∧ r.events.count Ev.audioStart = 0) ∧
      ((captionStage w).1 = none → r.events.count Ev.audioStart = 1) ∧
      (w.captionThrows = true → (captionStage w).1 = none) := by
  have hne : w.videoId ≠ "" := by
    intro he
    rw [he] at hid
    exact absurd hid (by decide)
  have htr : transcribe w = .ok (transcribeBody w) := by
    unfold transcribe
    rw [if_neg (by simp [hne, hid])]
  have hb := transcribeBody_eq w hpx
  refine ⟨transcribeBody w, htr, ?_, ?_, ?_⟩
  · intro t ht
    have hnee := captionStage_some_ne_empty w t ht
    rcases hcs : captionStage w with ⟨c1, fs⟩
    rw [hcs] at hb ht
    have hc1 : c1 = some t := ht
    subst hc1
    rw [hb]
    exact ⟨rfl, hnee, rfl⟩
  · intro hnone
    rcases hcs : captionStage w with ⟨c1, fs⟩
    rw [hcs] at hb hnone
    have hc1 : c1 = none := hnone
    subst hc1
    rw [hb]
    exact count_audioStart_audioPhase w fs
  · intro hthrow
    rw [captionStage_of_throw w hthrow]

/-- Witness for C1 at a world whose caption stage succeeds. -/
theorem captions_first_shortcircuit_witness :
    ∃ r, transcribe capWorld = .ok r ∧
      (∀ t, (captionStage capWorld).1 = some t →
        r.output = some t ∧ t ≠ "" ∧ r.events.count Ev.audioStart = 0) ∧
      ((captionStage capWorld).1 = none →
        r.events.count Ev.audioStart = 1) ∧
      (capWorld.captionThrows = true → (captionStage capWorld).1 = none) :=
  captions_first_shortcircuit capWorld (by decide) (by decide)

/-- C3 counterexample: when the caption subprocess writes caption files for
both requested languages, only the first probed one is read and deleted; the
Spanish caption file is still on disk after the request completes. -/
theorem temp_file_leak_counterexample :
    transcribe leakWorld =
      .ok ⟨some "Hello world", [Ev.captionRun], ["/tmp/dQw4w9WgXcQ.es.vtt"]⟩ ∧
    "/tmp/dQw4w9WgXcQ.es.vtt" ∈ (transcribeBody leakWorld).fsAfter :=
  ⟨rfl, by decide⟩

theorem captionStage_snd_subset (w : World) (q : String)
    (hq : q ∈ (captionStage w).2) :
    q ∈ w.captionCreated.map (fun e => e.1) := by
  unfold captionStage at hq
  split at hq
  · simp at hq
  · split at hq
    · exact hq
    · split at hq
      · exact List.mem_of_mem_filter hq
      · exact List.mem_of_mem_filter hq

theorem probedPath_not_mem_snd (w : World) (p : String)
    (hp : probedPath w = some p) : p ∉ (captionStage w).2 := by
  unfold probedPath at hp
  unfold captionStage
  split
  · simp
  · rename_i hthrow
    rw [if_neg hthrow] at hp
    split
    · rename_i hnone
      rw [hnone] at hp
      cases hp
    · rename_i p2 hsome
      rw [hsome] at hp
      injection hp with hpe
      subst hpe
      split
      · intro hmem
        have h2 := (List.mem_filter.mp hmem).2
        simp at h2
      · intro hmem
        have h2 := (List.mem_filter.mp hmem).2
        simp at h2

theorem runInference_not_mem_runAudio (w : World) :
    Ev.runInference ∉ (runAudioPipeline w).2 := by
  unfold runAudioPipeline
  by_cases h1 : w.ytExit = 0
  · by_cases h2 : w.ffExit = 0
    · by_cases h3 : w.audioData = []
      · rw [if_neg (by simp [h1]), if_neg (by simp [h2]), if_pos h3]
        decide
      · rw [if_neg (by simp [h1]), if_neg (by simp [h2]), if_neg h3]
        show Ev.runInference ∉
          [Ev.audioStart, Ev.drainOutput, Ev.waitYt, Ev.checkYtCode,
           Ev.checkFfCode, Ev.checkEmpty]
        decide
    · rw [if_neg (by simp [h1]), if_pos h2]
      decide
  · rw [if_pos h1]
    decide

theorem audioPhase_fs_inference (w : World) (fs : List String) :
    ((audioPhase w fs).fsAfter = fs ∧
      Ev.runInference ∉ (audioPhase w fs).events) ∨
    (audioPhase w fs).fsAfter =
      (w.tmpName :: fs).filter (fun q => q ≠ w.tmpName) := by
  unfold audioPhase
  split
  · rename_i aevs heq
    left
    refine ⟨rfl, ?_⟩
    have hnm := runInference_not_mem_runAudio w
    rw [heq] at hnm
    simp only [List.mem_cons]
    rintro (hc | hc)
    · cases hc
    · exact hnm hc
  · rename_i val aevs heq
    have hnm := runInference_not_mem_runAudio w
    rw [heq] at hnm
    unfold modelPhase
    split
    · left
      refine ⟨rfl, ?_⟩
      simp only [List.mem_append, List.mem_cons]
      rintro ((hc | hc) | hc)
      · cases hc
      · exact hnm hc
      · rcases hc with hc | hc
        · cases hc
        · simp at hc
    · split
      · unfold inferPhase
        split
        · exact Or.inr rfl
        · exact Or.inr rfl
      · unfold inferPhase
        split
        · exact Or.inr rfl
        · exact Or.inr rfl

/-- C3 amended: the caption artifact actually located and read by the probe
and the audio-to-inference bridge file are always deleted before the request
completes, on every exit path; but caption files the downloader created other
than the first probe match are never cleaned up, so anything left on disk is
such an unprobed caption artifact. -/
theorem temp_cleanup_amended (w : World) (r : TOut)
    (h : transcribe w = .ok r) :
    (∀ p, probedPath w = some p → p ∉ r.fsAfter) ∧
    (Ev.runInference ∈ r.events → w.tmpName ∉ r.fsAfter) ∧
    (∀ q ∈ r.fsAfter, q ∈ w.captionCreated.map (fun e => e.1)) := by
  have hr : r = transcribeBody w := by
    unfold transcribe at h
    split at h
    · simp at h
    · injection h with h2
      exact h2.symm
  subst hr
  by_cases hpx : missingProxyVars w.env = []
  case neg =>
    have hb : transcribeBody w = ⟨none, [], []⟩ := by
      unfold transcribeBody getProxyConfig
      rw [if_neg hpx]
    rw [hb]
    refine ⟨?_, ?_, ?_⟩ <;> simp
  case pos =>
    have hb := transcribeBody_eq w hpx
    rcases hcs : captionStage w with ⟨c1, fs⟩
    rw [hcs] at hb
    have hsub : ∀ q ∈ fs, q ∈ w.captionCreated.map (fun e => e.1) := by
      intro q hq
      exact captionStage_snd_subset w q (by rw [hcs]; exact hq)
    have hprobe : ∀ p, probedPath w = some p → p ∉ fs := by
      intro p hp hmem
      exact probedPath_not_mem_snd w p hp (by rw [hcs]; exact hmem)
    cases c1 with
    | some t =>
      rw [hb]
      refine ⟨fun p hp => hprobe p hp, ?_, hsub⟩
      intro hmem
      simp at hmem
    | none =>
      rw [hb]
      rcases audioPhase_fs_inference w fs with ⟨hfs, hninf⟩ | hfs
      · rw [hfs]
        exact ⟨fun p hp => hprobe p hp, fun hmem => absurd hmem hninf, hsub⟩
      · rw [hfs]
        refine ⟨?_, ?_, ?_⟩
        · intro p hp hmem
          have h2 := List.mem_filter.mp hmem
          rcases List.mem_cons.mp h2.1 with he | he
          · rw [he] at h2
            simp at h2
          · exact hprobe p hp he
        · intro _ hmem
          have h2 := List.mem_filter.mp hmem
          simp at h2
        · intro q hq
          have h2 := List.mem_filter.mp hq
          rcases List.mem_cons.mp h2.1 with he | he
          · rw [he] at h2
            simp at h2
          · exact hsub q he

/-- Witness for C3 amended at a world where the probe reads an uninformative
caption file and the audio path with inference runs to completion. -/
theorem temp_cleanup_amended_witness :
    (∀ p, probedPath cleanWorld = some p →
      p ∉ (transcribeBody cleanWorld).fsAfter) ∧
    (Ev.runInference ∈ (transcribeBody cleanWorld).events →
      cleanWorld.tmpName ∉ (transcribeBody cleanWorld).fsAfter) ∧
    (∀ q ∈ (transcribeBody cleanWorld).fsAfter,
      q ∈ cleanWorld.captionCreated.map (fun e => e.1)) :=
  temp_cleanup_amended cleanWorld (transcribeBody cleanWorld) rfl

/-- C10: calling `transcribe` directly raises only for an empty or
non-11-character reference — the alphabet is not checked — so the 11-character
reference of exclamation marks, rejected by the CLI validation, proceeds past
validation into the caption subprocess invocation. -/
theorem direct_call_validation :
    (∀ w : World, (∃ e, transcribe w = .error e) ↔
      (w.videoId = "" ∨ w.videoId.length ≠ 11)) ∧
    validVideoIdCLI "!!!!!!!!!!!" = false ∧
    (∃ r, transcribe badAlphabetWorld = .ok r ∧ Ev.captionRun ∈ r.events) := by
  refine ⟨?_, by decide, ?_⟩
  · intro w
    constructor
    · rintro ⟨e, he⟩
      unfold transcribe at he
      by_cases hc : w.videoId = "" ∨ w.videoId.length ≠ 11
      · exact hc
      · rw [if_neg hc] at he
        cases he
    · intro hc
      refine ⟨"Invalid YouTube video ID. Must be 11 characters.", ?_⟩
      unfold transcribe
      rw [if_pos hc]
  · exact ⟨transcribeBody badAlphabetWorld, rfl, by decide⟩
